import Mathlib

/-!
Verification of the Skibbs human-tracking robot (drive.py, main.py).

Python floats are modelled as rationals (ℚ); all arithmetic the control law
performs (+, -, *, /, abs, min, max, comparisons) is exact on the values the
claims exercise, so ℚ is a faithful shallow embedding. Python integer floor
division `//` is modelled by `Int.fdiv`. Fallible hardware writes are modelled
by explicit failure flags; `try/except` blocks in the source become total
functions that keep or partially update state instead of propagating an error.
-/

namespace Skibbs

/-- State of one BTS7960 motor driver (drive.py, class BTS7960Motor):
`rpmh`/`lpmh` are the duty cycles of the forward / reverse PWM channels,
`initialized` is the `self.initialized` flag. The enable lines are set once at
construction and never touched by forward/backward/stop, so they are omitted
from the per-call state. -/
structure BTS7960Motor where
  rpmh : ℚ
  lpmh : ℚ
  initialized : Bool
deriving DecidableEq, Repr

/-- The hard duty-cycle cap of 0.5 (drive.py lines 45 and 59: `min(speed, 0.5)`). -/
def dutyCap : ℚ := 1/2

namespace BTS7960Motor

/-- drive.py lines 36-48, `BTS7960Motor.forward`: if not initialized, no-op;
otherwise turn the reverse channel off, then write `min(speed, 0.5)` to the
forward channel. -/
def forward (m : BTS7960Motor) (speed : ℚ) : BTS7960Motor :=
  if m.initialized then { m with lpmh := 0, rpmh := min speed dutyCap } else m

/-- drive.py lines 50-62, `BTS7960Motor.backward`: symmetric to `forward`. -/
def backward (m : BTS7960Motor) (speed : ℚ) : BTS7960Motor :=
  if m.initialized then { m with rpmh := 0, lpmh := min speed dutyCap } else m

/-- The sequence of states an initialized motor passes through during a
`forward(speed)` call, one entry per executed hardware write (drive.py lines
43-46): entry state, state after `self.lpmh.off()`, state after
`self.rpmh.value = capped_speed`. An uninitialized motor performs no write. -/
def forwardTrace (m : BTS7960Motor) (speed : ℚ) : List BTS7960Motor :=
  if m.initialized then
    [m, { m with lpmh := 0 }, { m with lpmh := 0, rpmh := min speed dutyCap }]
  else [m]

/-- The sequence of states during a `backward(speed)` call (drive.py lines
57-60): entry state, state after `self.rpmh.off()`, state after
`self.lpmh.value = capped_speed`. -/
def backwardTrace (m : BTS7960Motor) (speed : ℚ) : List BTS7960Motor :=
  if m.initialized then
    [m, { m with rpmh := 0 }, { m with rpmh := 0, lpmh := min speed dutyCap }]
  else [m]

/-- drive.py lines 64-75, `BTS7960Motor.stop`: if initialized, both channels
are set to duty 0. -/
def stop (m : BTS7960Motor) : BTS7960Motor :=
  if m.initialized then { m with rpmh := 0, lpmh := 0 } else m

/-- drive.py lines 64-75 with fallible hardware writes: the two `off()` calls
sit in one `try` block whose `except` swallows the error. If the forward-channel
write raises (`failR`), the reverse-channel write is skipped; if the
reverse-channel write raises (`failL`), the forward channel was already zeroed.
The function is total: `stop` never propagates an exception. -/
def stopF (failR failL : Bool) (m : BTS7960Motor) : BTS7960Motor :=
  if m.initialized then
    if failR then m
    else if failL then { m with rpmh := 0 }
    else { m with rpmh := 0, lpmh := 0 }
  else m

/-- drive.py lines 77-91, `BTS7960Motor.cleanup`: stop, then close both
channels and both enables, then clear the initialized flag. Closed channels
hold no duty, so the duties are those `stop` left. -/
def cleanup (m : BTS7960Motor) : BTS7960Motor :=
  { stop m with initialized := false }

end BTS7960Motor

/-- Direction exclusivity: at most one of the two PWM channels carries a
nonzero duty (spec §3, MotorDriver invariant). -/
def exclusiveM (m : BTS7960Motor) : Prop := m.rpmh = 0 ∨ m.lpmh = 0

instance (m : BTS7960Motor) : Decidable (exclusiveM m) := by
  unfold exclusiveM; infer_instance

/-- C1: during every `forward(speed)` or `backward(speed)` call on a motor
whose entry state satisfies direction exclusivity, every intermediate state
(entry state, state after the opposite channel is turned off, state after the
new duty is written) also satisfies exclusivity: the opposite channel is zeroed
before the new channel's duty is written, so the two channels are never
simultaneously nonzero. -/
theorem forward_backward_direction_exclusive (m : BTS7960Motor) (s : ℚ)
    (h : exclusiveM m) :
    (∀ m' ∈ BTS7960Motor.forwardTrace m s, exclusiveM m') ∧
    (∀ m' ∈ BTS7960Motor.backwardTrace m s, exclusiveM m') := by
  constructor
  · intro m' hm'
    unfold BTS7960Motor.forwardTrace at hm'
    split at hm'
    · simp only [List.mem_cons, List.not_mem_nil, or_false] at hm'
      rcases hm' with h1 | h1 | h1 <;> subst h1
      · exact h
      · exact Or.inr rfl
      · exact Or.inr rfl
    · simp only [List.mem_singleton] at hm'
      subst hm'; exact h
  · intro m' hm'
    unfold BTS7960Motor.backwardTrace at hm'
    split at hm'
    · simp only [List.mem_cons, List.not_mem_nil, or_false] at hm'
      rcases hm' with h1 | h1 | h1 <;> subst h1
      · exact h
      · exact Or.inl rfl
      · exact Or.inl rfl
    · simp only [List.mem_singleton] at hm'
      subst hm'; exact h

/-- C1 witness: concrete instance at a motor running in reverse at duty 0.3
being commanded forward at 0.4. -/
theorem forward_backward_direction_exclusive_witness :
    exclusiveM { rpmh := 0, lpmh := 3/10, initialized := true } :=
  (forward_backward_direction_exclusive
      { rpmh := 0, lpmh := 3/10, initialized := true } (2/5) (Or.inl rfl)).1
    { rpmh := 0, lpmh := 3/10, initialized := true }
    (by simp [BTS7960Motor.forwardTrace])

/-- C2: for every requested duty `s ∈ [0,1]` on an initialized motor, the duty
actually written to the active channel is exactly `min s 0.5` — both for
`forward` (forward channel) and `backward` (reverse channel). -/
theorem forward_backward_duty_capped (m : BTS7960Motor) (s : ℚ)
    (hm : m.initialized = true) (_h0 : 0 ≤ s) (_h1 : s ≤ 1) :
    (m.forward s).rpmh = min s (1/2) ∧ (m.backward s).lpmh = min s (1/2) := by
  simp [BTS7960Motor.forward, BTS7960Motor.backward, hm, dutyCap]

/-- C2 witness: requesting duty 3/4 on an initialized motor applies
min(3/4, 1/2) = 1/2. -/
theorem forward_backward_duty_capped_witness :
    (BTS7960Motor.forward { rpmh := 0, lpmh := 0, initialized := true } (3/4)).rpmh
        = min (3/4) (1/2) ∧
    (BTS7960Motor.backward { rpmh := 0, lpmh := 0, initialized := true } (3/4)).lpmh
        = min (3/4) (1/2) :=
  forward_backward_duty_capped { rpmh := 0, lpmh := 0, initialized := true } (3/4)
    rfl (by norm_num) (by norm_num)

/-! ## Control law (main.py) -/

/-- main.py line 9: `POSITION_COEFFICIENT = 0.5`. -/
def POSITION_COEFFICIENT : ℚ := 1/2

/-- main.py line 10: `SENSITIVITY_THRESHOLD = 0.05`. -/
def SENSITIVITY_THRESHOLD : ℚ := 1/20

/-- main.py line 11: `HUMAN_AREA_TARGET = 0.333`. -/
def HUMAN_AREA_TARGET : ℚ := 333/1000

/-- A bounding box `(x_min, y_min, x_max, y_max)` in integer pixel
coordinates, `None` when absent. -/
abbrev Box := Option (ℤ × ℤ × ℤ × ℤ)

/-- main.py lines 13-20, `calculate_area_deviation`. -/
def calculate_area_deviation (human_area target_area : ℚ) : ℚ :=
  if human_area = 0 ∨ target_area = 0 then 0
  else (human_area - target_area) / target_area

/-- main.py lines 22-33, `calculate_position_deviation`. Python's `//` is
floor division, `Int.fdiv`. -/
def calculate_position_deviation (box : Box) (frame_width : ℤ) : ℤ :=
  match box with
  | none => 0
  | some (x_min, _, x_max, _) => Int.fdiv (x_min + x_max) 2 - Int.fdiv frame_width 2

/-- main.py lines 35-39, `apply_threshold`: dead-zone filter. -/
def apply_threshold (value threshold : ℚ) : ℚ :=
  if |value| < threshold then 0 else value

/-- The thresholded deviation signal returned by `get_deviations`
(`{"x": ..., "y": ...}`). -/
structure Deviations where
  x : ℚ
  y : ℚ
deriving DecidableEq, Repr

/-- main.py lines 41-57, `get_deviations`. -/
def get_deviations (box : Box) (human_area target_area : ℚ) (frame_width : ℤ) :
    Deviations :=
  match box with
  | none => ⟨0, 0⟩
  | some b =>
    let area_dev := calculate_area_deviation human_area target_area
    let pos_dev : ℚ := (calculate_position_deviation (some b) frame_width : ℤ)
    let pos_dev_scaled := pos_dev / ((frame_width : ℚ) * POSITION_COEFFICIENT)
    ⟨apply_threshold area_dev SENSITIVITY_THRESHOLD,
     apply_threshold pos_dev_scaled SENSITIVITY_THRESHOLD⟩

/-- main.py lines 59-64, `get_human_area`. -/
def get_human_area (box : Box) : ℤ :=
  match box with
  | none => 0
  | some (x_min, y_min, x_max, y_max) => (x_max - x_min) * (y_max - y_min)

/-- C4 counterexample: at the boundary `|v| = 0.05` exactly, `apply_threshold`
returns the value unchanged (the source uses strict `<`), not 0 as the claim
states. -/
theorem apply_threshold_boundary_not_suppressed :
    apply_threshold (1/20) (1/20) = 1/20 ∧ (1/20 : ℚ) ≠ 0 := by
  constructor
  · unfold apply_threshold
    rw [if_neg]
    rw [not_lt, abs_of_pos (by norm_num : (0:ℚ) < 1/20)]
  · norm_num

/-- C4 amended: the dead-zone filter emits exactly 0 for `|v| < 0.05` and
returns `v` unchanged for `|v| ≥ 0.05`; at the boundary `|v| = 0.05` exactly
the value is treated as at-or-above threshold, i.e. passed through unchanged. -/
theorem apply_threshold_dead_zone (v : ℚ) :
    (|v| < SENSITIVITY_THRESHOLD → apply_threshold v SENSITIVITY_THRESHOLD = 0) ∧
    (SENSITIVITY_THRESHOLD ≤ |v| → apply_threshold v SENSITIVITY_THRESHOLD = v) := by
  constructor
  · intro h
    unfold apply_threshold
    rw [if_pos h]
  · intro h
    unfold apply_threshold
    rw [if_neg (not_lt.mpr h)]

/-- C4 witness: 0.01 is inside the dead zone and suppressed to 0. -/
theorem apply_threshold_dead_zone_witness :
    apply_threshold (1/100) SENSITIVITY_THRESHOLD = 0 :=
  (apply_threshold_dead_zone (1/100)).1
    (by rw [abs_of_pos (by norm_num : (0:ℚ) < 1/100)]; norm_num [SENSITIVITY_THRESHOLD])

/-- main.py line 81: `base_speed = 0.5`. -/
def base_speed : ℚ := 1/2

/-- main.py lines 88-106 inside `control_all_wheels`: the left/right wheel
speeds computed from the thresholded deviations — `movement_speed =
base_speed * abs(x_dev)`, differential assignment by the sign of `y_dev`,
then both clamped into [0,1] by `max(0, min(1, ·))`. -/
def wheelSpeeds (x_dev y_dev : ℚ) : ℚ × ℚ :=
  let movement_speed := base_speed * |x_dev|
  let p :=
    if y_dev > 0 then (movement_speed, movement_speed * (1/2))
    else if y_dev < 0 then (movement_speed * (1/2), movement_speed)
    else (movement_speed, movement_speed)
  (max 0 (min 1 p.1), max 0 (min 1 p.2))

/-- The actuation command `control_all_wheels` issues to the `Drive`
coordinator on one control tick: a global stop, a latched (`duration=None`)
forward whole-chassis drive, or a latched backward whole-chassis drive. -/
inductive DriveCmd
  | stopAllCmd
  | allDriveCmd (fl fr rl rr : ℚ)
  | allDriveBackwardCmd (fl fr rl rr : ℚ)
deriving DecidableEq, Repr

/-- main.py lines 75-118, `control_all_wheels`, as the command it issues:
`none` when the function returns without touching the drive (which happens
when `x_dev = 0` but `y_dev ≠ 0`). Front and rear wheels on the same side
receive the same speed. -/
def control_all_wheels (dev : Deviations) : Option DriveCmd :=
  if dev.x = 0 ∧ dev.y = 0 then some DriveCmd.stopAllCmd
  else
    let s := wheelSpeeds dev.x dev.y
    if dev.x < 0 then some (DriveCmd.allDriveCmd s.1 s.2 s.1 s.2)
    else if dev.x > 0 then some (DriveCmd.allDriveBackwardCmd s.1 s.2 s.1 s.2)
    else none

/-- C6: direction selection. A negative thresholded area deviation issues a
forward whole-chassis command, a positive one a backward command, a fully zero
deviation signal issues a global stop; and with no box present the deviation
signal is exactly zero, so the coordinator is issued `stop_all`. -/
theorem control_direction_selection (x y : ℚ) :
    (x < 0 → control_all_wheels ⟨x, y⟩ =
      some (DriveCmd.allDriveCmd (wheelSpeeds x y).1 (wheelSpeeds x y).2
        (wheelSpeeds x y).1 (wheelSpeeds x y).2)) ∧
    (0 < x → control_all_wheels ⟨x, y⟩ =
      some (DriveCmd.allDriveBackwardCmd (wheelSpeeds x y).1 (wheelSpeeds x y).2
        (wheelSpeeds x y).1 (wheelSpeeds x y).2)) ∧
    (x = 0 ∧ y = 0 → control_all_wheels ⟨x, y⟩ = some DriveCmd.stopAllCmd) ∧
    (∀ (ha ta : ℚ) (fw : ℤ), get_deviations none ha ta fw = ⟨0, 0⟩) ∧
    control_all_wheels ⟨0, 0⟩ = some DriveCmd.stopAllCmd := by
  refine ⟨?_, ?_, ?_, ?_, ?_⟩
  · intro hx
    unfold control_all_wheels
    rw [if_neg (by rintro ⟨h1, -⟩; exact absurd h1 (ne_of_lt hx)), if_pos hx]
  · intro hx
    unfold control_all_wheels
    rw [if_neg (by rintro ⟨h1, -⟩; exact absurd h1 (ne_of_gt hx)),
      if_neg (not_lt.mpr (le_of_lt hx)), if_pos hx]
  · intro hxy
    unfold control_all_wheels
    rw [if_pos hxy]
  · intro ha ta fw
    rfl
  · rfl

/-- C6 witness: area deviation -1/2 with centered position issues a forward
command at the computed speeds. -/
theorem control_direction_selection_witness :
    control_all_wheels ⟨-(1/2), 0⟩ =
      some (DriveCmd.allDriveCmd (wheelSpeeds (-(1/2)) 0).1 (wheelSpeeds (-(1/2)) 0).2
        (wheelSpeeds (-(1/2)) 0).1 (wheelSpeeds (-(1/2)) 0).2) :=
  (control_direction_selection (-(1/2)) 0).1 (by norm_num)

/-- Helper: the dead-zone filter suppresses values strictly below threshold. -/
theorem apply_threshold_of_lt (v t : ℚ) (h : |v| < t) : apply_threshold v t = 0 := by
  unfold apply_threshold
  rw [if_pos h]

/-- Helper: the dead-zone filter passes values at or above threshold. -/
theorem apply_threshold_of_le (v t : ℚ) (h : t ≤ |v|) : apply_threshold v t = v := by
  unfold apply_threshold
  rw [if_neg (not_lt.mpr h)]

/-- Helper: `get_deviations` on a present box, with the let-bindings of
main.py lines 46-57 expanded. -/
theorem get_deviations_some (x_min y_min x_max y_max : ℤ) (ha ta : ℚ) (fw : ℤ) :
    get_deviations (some (x_min, y_min, x_max, y_max)) ha ta fw =
      ⟨apply_threshold (calculate_area_deviation ha ta) SENSITIVITY_THRESHOLD,
       apply_threshold
         ((calculate_position_deviation (some (x_min, y_min, x_max, y_max)) fw : ℚ) /
           ((fw : ℚ) * POSITION_COEFFICIENT)) SENSITIVITY_THRESHOLD⟩ := rfl

/-- Helper: `control_all_wheels` with the let-binding of main.py line 89
expanded. -/
theorem control_all_wheels_eval (x y : ℚ) :
    control_all_wheels ⟨x, y⟩ =
      if x = 0 ∧ y = 0 then some DriveCmd.stopAllCmd
      else if x < 0 then
        some (DriveCmd.allDriveCmd (wheelSpeeds x y).1 (wheelSpeeds x y).2
          (wheelSpeeds x y).1 (wheelSpeeds x y).2)
      else if 0 < x then
        some (DriveCmd.allDriveBackwardCmd (wheelSpeeds x y).1 (wheelSpeeds x y).2
          (wheelSpeeds x y).1 (wheelSpeeds x y).2)
      else none := rfl

/-- Helper: wheel speeds when the subject is to the right (`y_dev > 0`). -/
theorem wheelSpeeds_pos (x y : ℚ) (hy : 0 < y) :
    wheelSpeeds x y =
      (max 0 (min 1 (base_speed * |x|)), max 0 (min 1 (base_speed * |x| * (1/2)))) := by
  simp only [wheelSpeeds, gt_iff_lt]
  rw [if_pos hy]

/-- Helper: wheel speeds when the subject is to the left (`y_dev < 0`). -/
theorem wheelSpeeds_neg (x y : ℚ) (hy : y < 0) :
    wheelSpeeds x y =
      (max 0 (min 1 (base_speed * |x| * (1/2))), max 0 (min 1 (base_speed * |x|))) := by
  simp only [wheelSpeeds, gt_iff_lt]
  rw [if_neg (not_lt.mpr (le_of_lt hy)), if_pos hy]

/-- Helper: wheel speeds when the subject is centered (`y_dev = 0`). -/
theorem wheelSpeeds_zero (x : ℚ) :
    wheelSpeeds x 0 =
      (max 0 (min 1 (base_speed * |x|)), max 0 (min 1 (base_speed * |x|))) := by
  simp only [wheelSpeeds, gt_iff_lt]
  rw [if_neg (lt_irrefl 0), if_neg (lt_irrefl 0)]

/-- Helper: the clamp `max 0 (min 1 ·)` of main.py lines 105-106 is
nonnegative. -/
theorem clamp01_nonneg (a : ℚ) : 0 ≤ max 0 (min 1 a) := le_max_left 0 _

/-- Helper: the clamp `max 0 (min 1 ·)` of main.py lines 105-106 is at
most one. -/
theorem clamp01_le_one (a : ℚ) : max 0 (min 1 a) ≤ 1 :=
  max_le zero_le_one (min_le_left 1 a)

/-- C7 counterexample: a 2×100-pixel box hugging the right edge of a 640-wide
frame (center_x = 639, the rightmost column) whose area exactly equals the
target area. The thresholded deviation pair is (0, 319/320) — nonzero as a
pair — yet both wheel speeds are 0 (movement_speed = 0.5·|0| = 0), so
right_speed < left_speed fails. -/
theorem right_edge_equal_speeds_counterexample :
    get_deviations (some (638, 0, 640, 100)) 200 200 640 = ⟨0, 319/320⟩ ∧
    (⟨0, 319/320⟩ : Deviations) ≠ ⟨0, 0⟩ ∧
    wheelSpeeds 0 (319/320) = (0, 0) ∧
    ¬ (wheelSpeeds 0 (319/320)).2 < (wheelSpeeds 0 (319/320)).1 := by
  have hcad0 : calculate_area_deviation 200 200 = 0 := by
    unfold calculate_area_deviation
    rw [if_neg (by norm_num)]
    norm_num
  have hcpd0 : calculate_position_deviation (some (638, 0, 640, 100)) 640 = 319 := rfl
  have hdev : get_deviations (some (638, 0, 640, 100)) 200 200 640 = ⟨0, 319/320⟩ := by
    rw [get_deviations_some, hcad0, hcpd0]
    have harg : ((319:ℤ):ℚ) / (((640:ℤ):ℚ) * POSITION_COEFFICIENT) = 319/320 := by
      unfold POSITION_COEFFICIENT
      push_cast
      norm_num
    rw [harg]
    rw [apply_threshold_of_lt _ _ (by rw [abs_zero]; norm_num [SENSITIVITY_THRESHOLD])]
    rw [apply_threshold_of_le _ _ (by
      rw [abs_of_pos (by norm_num : (0:ℚ) < 319/320)]
      norm_num [SENSITIVITY_THRESHOLD])]
  have hws0 : wheelSpeeds 0 (319/320) = (0, 0) := by
    rw [wheelSpeeds_pos _ _ (by norm_num : (0:ℚ) < 319/320), abs_zero]
    unfold base_speed
    have hm : max 0 (min 1 (0:ℚ)) = 0 := by
      rw [min_eq_right (by norm_num : (0:ℚ) ≤ 1), max_self]
    simp only [mul_zero, zero_mul, hm]
  refine ⟨hdev, ?_, hws0, ?_⟩
  · intro hcontra
    rw [Deviations.mk.injEq] at hcontra
    exact absurd hcontra.2 (by norm_num)
  · rw [hws0]
    exact lt_irrefl 0

/-- C7 amended: for every nonzero thresholded deviation pair (x, y), with
movement_speed = 0.5·|x|: if y > 0 the pre-clamp speeds are (movement_speed,
movement_speed·0.5); if y < 0 they are mirrored; if y = 0 both sides are
equal; both final speeds lie in [0,1]; and when y > 0 the final speeds
satisfy right < left exactly when 0 < |x| < 4 (for x = 0 both speeds are 0,
and for |x| ≥ 4 the clamp saturates both sides at 1). A box centered exactly
on the frame center gives y = 0 and hence equal speeds. -/
theorem wheel_speed_mapping (x y : ℚ) (_h : ¬(x = 0 ∧ y = 0)) :
    (0 < y → wheelSpeeds x y =
      (max 0 (min 1 (base_speed * |x|)), max 0 (min 1 (base_speed * |x| * (1/2))))) ∧
    (y < 0 → wheelSpeeds x y =
      (max 0 (min 1 (base_speed * |x| * (1/2))), max 0 (min 1 (base_speed * |x|)))) ∧
    (y = 0 → (wheelSpeeds x y).1 = (wheelSpeeds x y).2) ∧
    (0 ≤ (wheelSpeeds x y).1 ∧ (wheelSpeeds x y).1 ≤ 1 ∧
      0 ≤ (wheelSpeeds x y).2 ∧ (wheelSpeeds x y).2 ≤ 1) ∧
    (0 < y → ((wheelSpeeds x y).2 < (wheelSpeeds x y).1 ↔ 0 < |x| ∧ |x| < 4)) := by
  have habs : (0:ℚ) ≤ |x| := abs_nonneg x
  refine ⟨wheelSpeeds_pos x y, wheelSpeeds_neg x y, ?_, ?_, ?_⟩
  · intro hy
    subst hy
    rw [wheelSpeeds_zero x]
  · rcases lt_trichotomy 0 y with hy | hy | hy
    · rw [wheelSpeeds_pos x y hy]
      exact ⟨clamp01_nonneg _, clamp01_le_one _, clamp01_nonneg _, clamp01_le_one _⟩
    · rw [← hy, wheelSpeeds_zero x]
      exact ⟨clamp01_nonneg _, clamp01_le_one _, clamp01_nonneg _, clamp01_le_one _⟩
    · rw [wheelSpeeds_neg x y hy]
      exact ⟨clamp01_nonneg _, clamp01_le_one _, clamp01_nonneg _, clamp01_le_one _⟩
  · intro hy
    rw [wheelSpeeds_pos x y hy]
    dsimp only
    unfold base_speed
    rw [max_eq_right (le_min (by norm_num) (by linarith)),
      max_eq_right (le_min (by norm_num) (by linarith))]
    constructor
    · intro hlt
      by_contra hc
      rw [not_and_or, not_lt, not_lt] at hc
      rcases hc with hc | hc
      · have hx0 : |x| = 0 := le_antisymm hc habs
        rw [hx0] at hlt
        simp only [mul_zero, zero_mul] at hlt
        exact lt_irrefl _ hlt
      · rw [min_eq_left (by linarith : (1:ℚ) ≤ 1/2 * |x|),
          min_eq_left (by linarith : (1:ℚ) ≤ 1/2 * |x| * (1/2))] at hlt
        exact lt_irrefl _ hlt
    · rintro ⟨hpos, hlt4⟩
      rcases le_or_lt (1/2 * |x|) 1 with hle | hgt
      · rw [min_eq_right hle, min_eq_right (by linarith : (1/2:ℚ) * |x| * (1/2) ≤ 1)]
        linarith
      · rw [min_eq_left (le_of_lt hgt),
          min_eq_right (by linarith : (1/2:ℚ) * |x| * (1/2) ≤ 1)]
        linarith

/-- C7 amended witness: at deviations (-7/10, 1) — subject too far and to the
right — right_speed < left_speed, since 0 < |−7/10| < 4. -/
theorem wheel_speed_mapping_witness :
    (wheelSpeeds (-(7/10)) 1).2 < (wheelSpeeds (-(7/10)) 1).1 :=
  ((wheel_speed_mapping (-(7/10)) 1 (by norm_num)).2.2.2.2 (by norm_num)).mpr
    (by rw [abs_of_neg (by norm_num : -(7/10 : ℚ) < 0)]; norm_num)

/-- C9: the end-to-end concrete scenario — target_area = 300000,
box = (100,100,400,400), frame_width = 640: human area 90000, area deviation
-7/10 = -0.7, raw position deviation 250 - 320 = -70, scaled deviation
-70/320 = -7/32 = -0.21875, both passing the threshold; the resulting command
is a forward drive with left speed 7/40 = 0.175 and right speed 7/20 = 0.35
(turn left). -/
theorem end_to_end_scenario :
    get_human_area (some (100, 100, 400, 400)) = 90000 ∧
    calculate_area_deviation 90000 300000 = -(7/10) ∧
    calculate_position_deviation (some (100, 100, 400, 400)) 640 = -70 ∧
    get_deviations (some (100, 100, 400, 400)) 90000 300000 640 =
      ⟨-(7/10), -(7/32)⟩ ∧
    control_all_wheels ⟨-(7/10), -(7/32)⟩ =
      some (DriveCmd.allDriveCmd (7/40) (7/20) (7/40) (7/20)) := by
  have hcad : calculate_area_deviation 90000 300000 = -(7/10) := by
    unfold calculate_area_deviation
    rw [if_neg (by norm_num)]
    norm_num
  have hcpd : calculate_position_deviation (some (100, 100, 400, 400)) 640 = -70 := rfl
  have habs : |(-(7/10) : ℚ)| = 7/10 := by
    rw [abs_of_neg (by norm_num : (-(7/10):ℚ) < 0)]
    norm_num
  have hws : wheelSpeeds (-(7/10)) (-(7/32)) = (7/40, 7/20) := by
    rw [wheelSpeeds_neg _ _ (by norm_num : (-(7/32):ℚ) < 0), habs]
    unfold base_speed
    rw [show (1/2 : ℚ) * (7/10) * (1/2) = 7/40 by norm_num,
      show (1/2 : ℚ) * (7/10) = 7/20 by norm_num,
      min_eq_right (by norm_num : (7/40:ℚ) ≤ 1),
      min_eq_right (by norm_num : (7/20:ℚ) ≤ 1),
      max_eq_right (by norm_num : (0:ℚ) ≤ 7/40),
      max_eq_right (by norm_num : (0:ℚ) ≤ 7/20)]
  refine ⟨rfl, hcad, hcpd, ?_, ?_⟩
  · rw [get_deviations_some, hcad, hcpd]
    have harg : ((-70:ℤ):ℚ) / (((640:ℤ):ℚ) * POSITION_COEFFICIENT) = -(7/32) := by
      unfold POSITION_COEFFICIENT
      push_cast
      norm_num
    rw [harg]
    rw [apply_threshold_of_le _ _ (by rw [habs]; norm_num [SENSITIVITY_THRESHOLD])]
    rw [apply_threshold_of_le _ _ (by
      rw [abs_of_neg (by norm_num : (-(7/32):ℚ) < 0)]
      norm_num [SENSITIVITY_THRESHOLD])]
  · rw [control_all_wheels_eval, if_neg (by norm_num),
      if_pos (by norm_num : (-(7/10):ℚ) < 0), hws]

/-! ## Drive coordinator (drive.py, class Drive) -/

/-- The four wheel names of the coordinator (drive.py lines 104-130). -/
inductive Wheel
  | front_left
  | front_right
  | rear_left
  | rear_right
deriving DecidableEq, Repr

instance : Fintype Wheel :=
  ⟨⟨{Wheel.front_left, Wheel.front_right, Wheel.rear_left, Wheel.rear_right}, by decide⟩,
    fun w => by cases w <;> decide⟩

/-- drive.py lines 95-137: coordinator state after construction — `self.motors`
as a total map over the four wheel names, and `self.initialized_motors`. -/
structure Drive where
  motors : Wheel → BTS7960Motor
  initializedMotors : List Wheel

/-- drive.py lines 229-236, `Drive.stop_all`, with fallible per-channel
hardware writes (the `fail` map gives each wheel's forward/reverse write
failure flags): every motor listed in `initialized_motors` gets a `stop`;
exceptions are swallowed both inside `BTS7960Motor.stop` and by the
`try/except` around each wheel, so the function is total and always returns a
coordinator state instead of propagating an error. -/
def stop_allF (fail : Wheel → Bool × Bool) (d : Drive) : Drive :=
  { d with
    motors := fun w =>
      if w ∈ d.initializedMotors then
        BTS7960Motor.stopF (fail w).1 (fail w).2 (d.motors w)
      else d.motors w }

/-- drive.py lines 229-236, `Drive.stop_all` on failure-free hardware. -/
def stop_all (d : Drive) : Drive := stop_allF (fun _ => (false, false)) d

/-- drive.py lines 197-211, `Drive.all_drive` with `duration=None` (the
latched form the tracking loop uses): every motor is driven forward at its
per-wheel speed and left running. -/
def all_drive (d : Drive) (fl fr rl rr : ℚ) : Drive :=
  { d with
    motors := fun w =>
      match w with
      | Wheel.front_left => BTS7960Motor.forward (d.motors Wheel.front_left) fl
      | Wheel.front_right => BTS7960Motor.forward (d.motors Wheel.front_right) fr
      | Wheel.rear_left => BTS7960Motor.forward (d.motors Wheel.rear_left) rl
      | Wheel.rear_right => BTS7960Motor.forward (d.motors Wheel.rear_right) rr }

/-- drive.py lines 213-227, `Drive.all_drive_backward` with `duration=None`. -/
def all_drive_backward (d : Drive) (fl fr rl rr : ℚ) : Drive :=
  { d with
    motors := fun w =>
      match w with
      | Wheel.front_left => BTS7960Motor.backward (d.motors Wheel.front_left) fl
      | Wheel.front_right => BTS7960Motor.backward (d.motors Wheel.front_right) fr
      | Wheel.rear_left => BTS7960Motor.backward (d.motors Wheel.rear_left) rl
      | Wheel.rear_right => BTS7960Motor.backward (d.motors Wheel.rear_right) rr }

/-- drive.py lines 238-254, `Drive.cleanup`: each motor in
`initialized_motors` is stopped, its channels and enables closed and its
initialized flag cleared; then the shared pin factory is reset. -/
def drive_cleanup (d : Drive) : Drive :=
  { d with
    motors := fun w =>
      if w ∈ d.initializedMotors then BTS7960Motor.cleanup (d.motors w)
      else d.motors w }

/-- C5: `stop_all` leaves both channels of every initialized wheel at duty 0
regardless of their prior duties; it is idempotent — indeed a second
`stop_all` leaves the state unchanged even if arbitrary channel writes fail
during it; and it never raises: for every failure configuration it is a total
function on coordinator states (exceptions are swallowed per wheel), which the
`stop_allF` embedding exhibits. -/
theorem stop_all_zeroes_idempotent_total (d : Drive) :
    (∀ w ∈ d.initializedMotors, (d.motors w).initialized = true →
      ((stop_all d).motors w).rpmh = 0 ∧ ((stop_all d).motors w).lpmh = 0) ∧
    (∀ fail : Wheel → Bool × Bool, stop_allF fail (stop_all d) = stop_all d) := by
  constructor
  · intro w hw hi
    unfold stop_all stop_allF BTS7960Motor.stopF
    simp [if_pos hw, hi]
  · intro fail
    unfold stop_all stop_allF
    congr 1
    funext w
    by_cases hw : w ∈ d.initializedMotors
    · simp only [if_pos hw]
      unfold BTS7960Motor.stopF
      by_cases hi : (d.motors w).initialized
      · simp only [hi, if_true]
        rcases (fail w) with ⟨fr, fl⟩
        cases fr <;> cases fl <;> simp
      · simp only [hi, Bool.false_eq_true, if_false]
    · simp only [if_neg hw]

/-- C5 witness: a coordinator whose front-left wheel is initialized and
running forward at duty 1/2 has that wheel fully de-energized by `stop_all`. -/
theorem stop_all_zeroes_idempotent_total_witness :
    ((stop_all
      { motors := fun _ => { rpmh := 1/2, lpmh := 0, initialized := true },
        initializedMotors := [Wheel.front_left] }).motors Wheel.front_left).rpmh = 0 ∧
    ((stop_all
      { motors := fun _ => { rpmh := 1/2, lpmh := 0, initialized := true },
        initializedMotors := [Wheel.front_left] }).motors Wheel.front_left).lpmh = 0 :=
  (stop_all_zeroes_idempotent_total
    { motors := fun _ => { rpmh := 1/2, lpmh := 0, initialized := true },
      initializedMotors := [Wheel.front_left] }).1
    Wheel.front_left (by simp) rfl

/-- Application of the command `control_all_wheels` issues to the coordinator
(main.py lines 85, 113-114, 117-118): `none` leaves the coordinator untouched. -/
def applyCmd (c : Option DriveCmd) (d : Drive) : Drive :=
  match c with
  | none => d
  | some DriveCmd.stopAllCmd => stop_all d
  | some (DriveCmd.allDriveCmd fl fr rl rr) => all_drive d fl fr rl rr
  | some (DriveCmd.allDriveBackwardCmd fl fr rl rr) => all_drive_backward d fl fr rl rr

/-- C10: when the thresholded area deviation is exactly 0 but the thresholded
position deviation is nonzero, `control_all_wheels` issues no actuation
command at all — neither a drive command nor `stop_all` — so every motor
channel keeps the duty latched by the previous command. -/
theorem zero_area_nonzero_position_no_command (y : ℚ) (hy : y ≠ 0) (d : Drive) :
    control_all_wheels ⟨0, y⟩ = none ∧
    applyCmd (control_all_wheels ⟨0, y⟩) d = d := by
  have hc : control_all_wheels ⟨0, y⟩ = none := by
    rw [control_all_wheels_eval,
      if_neg (by rintro ⟨-, h2⟩; exact hy h2),
      if_neg (lt_irrefl 0), if_neg (lt_irrefl 0)]
  exact ⟨hc, by rw [hc]; rfl⟩

/-- C10 witness: at deviations (0, 1) on a coordinator latched forward at duty
3/10 on every wheel, no command is issued and the state is unchanged. -/
theorem zero_area_nonzero_position_no_command_witness :
    control_all_wheels ⟨0, 1⟩ = none ∧
    applyCmd (control_all_wheels ⟨0, 1⟩)
      { motors := fun _ => { rpmh := 3/10, lpmh := 0, initialized := true },
        initializedMotors := [Wheel.front_left, Wheel.front_right,
          Wheel.rear_left, Wheel.rear_right] } =
      { motors := fun _ => { rpmh := 3/10, lpmh := 0, initialized := true },
        initializedMotors := [Wheel.front_left, Wheel.front_right,
          Wheel.rear_left, Wheel.rear_right] } :=
  zero_area_nonzero_position_no_command 1 (by norm_num)
    { motors := fun _ => { rpmh := 3/10, lpmh := 0, initialized := true },
      initializedMotors := [Wheel.front_left, Wheel.front_right,
        Wheel.rear_left, Wheel.rear_right] }

/-! ## Tracking loop (main.py, `main`) -/

/-- One camera tick as the loop body observes it: `ret` from `camera.read()`,
the perception result, whether the sentinel quit key `q` was pressed this
iteration, and whether an interrupt/exception fires inside the body this
iteration. -/
structure Frame where
  ret : Bool
  humanDetected : Bool
  box : Box
  quitKey : Bool
  raisesInterrupt : Bool

/-- Observable actions of `main` (main.py lines 166-217) on the drive and
camera, in program order. -/
inductive Event
  | evDriveCmd (c : DriveCmd)
  | evStopAll
  | evDriveCleanup
  | evCameraRelease
deriving DecidableEq, Repr

/-- main.py lines 178-200: the body of one loop iteration. If a human is
detected, deviations are computed and `control_all_wheels` may issue a
command; otherwise `drive.stop_all()` runs. -/
def tick (ta : ℚ) (fw : ℤ) (f : Frame) (d : Drive) : List Event × Drive :=
  if f.humanDetected then
    let devs := get_deviations f.box ((get_human_area f.box : ℤ) : ℚ) ta fw
    match control_all_wheels devs with
    | none => ([], d)
    | some c => ([Event.evDriveCmd c], applyCmd (some c) d)
  else ([Event.evStopAll], stop_all d)

/-- main.py lines 167-209: the `while True` loop over a stream of frames.
Exits: an interrupt/exception inside the body, `ret` false (end of camera
input), or — when a display exists (`not args.cmd`) — the sentinel key. -/
def runLoop (cmdMode : Bool) (ta : ℚ) (fw : ℤ) : List Frame → Drive → List Event × Drive
  | [], d => ([], d)
  | f :: rest, d =>
    if f.raisesInterrupt then ([], d)
    else if !f.ret then ([], d)
    else
      let td := tick ta fw f d
      if !cmdMode && f.quitKey then td
      else
        let r := runLoop cmdMode ta fw rest td.2
        (td.1 ++ r.1, r.2)

/-- main.py lines 166-215: the loop wrapped in `try/finally` — on every exit
path the `finally` block runs `drive.stop_all()`, then `drive.cleanup()`,
then `camera.release()`, in that order. -/
def mainTracking (cmdMode : Bool) (ta : ℚ) (fw : ℤ) (frames : List Frame)
    (d : Drive) : List Event × Drive :=
  let r := runLoop cmdMode ta fw frames d
  (r.1 ++ [Event.evStopAll, Event.evDriveCleanup, Event.evCameraRelease],
    drive_cleanup (stop_all r.2))

/-- Helper: `forward`, `backward` and `stop` do not change a motor's
initialized flag. -/
theorem motor_ops_preserve_initialized (m : BTS7960Motor) (s : ℚ) :
    (m.forward s).initialized = m.initialized ∧
    (m.backward s).initialized = m.initialized ∧
    m.stop.initialized = m.initialized := by
  unfold BTS7960Motor.forward BTS7960Motor.backward BTS7960Motor.stop
  refine ⟨?_, ?_, ?_⟩ <;> split <;> rfl

/-- Helper: applying any control command preserves the initialized-motor list
and every motor's initialized flag. -/
theorem applyCmd_preserves (c : Option DriveCmd) (d : Drive) :
    (applyCmd c d).initializedMotors = d.initializedMotors ∧
    ∀ w, ((applyCmd c d).motors w).initialized = (d.motors w).initialized := by
  match c with
  | none => exact ⟨rfl, fun w => rfl⟩
  | some DriveCmd.stopAllCmd =>
    refine ⟨rfl, fun w => ?_⟩
    unfold applyCmd stop_all stop_allF
    by_cases hw : w ∈ d.initializedMotors
    · simp only [if_pos hw]
      unfold BTS7960Motor.stopF
      split <;> rfl
    · simp only [if_neg hw]
  | some (DriveCmd.allDriveCmd fl fr rl rr) =>
    refine ⟨rfl, fun w => ?_⟩
    unfold applyCmd all_drive
    cases w <;> exact (motor_ops_preserve_initialized _ _).1
  | some (DriveCmd.allDriveBackwardCmd fl fr rl rr) =>
    refine ⟨rfl, fun w => ?_⟩
    unfold applyCmd all_drive_backward
    cases w <;> exact (motor_ops_preserve_initialized _ _).2.1

/-- Helper: one loop tick preserves the initialized-motor list and every
motor's initialized flag. -/
theorem tick_preserves (ta : ℚ) (fw : ℤ) (f : Frame) (d : Drive) :
    ((tick ta fw f d).2).initializedMotors = d.initializedMotors ∧
    ∀ w, (((tick ta fw f d).2).motors w).initialized = (d.motors w).initialized := by
  simp only [tick]
  split
  · split
    · exact ⟨rfl, fun w => rfl⟩
    · exact applyCmd_preserves _ d
  · exact applyCmd_preserves (some DriveCmd.stopAllCmd) d

/-- Helper: the whole loop preserves the initialized-motor list and every
motor's initialized flag. -/
theorem runLoop_preserves (cmdMode : Bool) (ta : ℚ) (fw : ℤ) :
    ∀ (frames : List Frame) (d : Drive),
      ((runLoop cmdMode ta fw frames d).2).initializedMotors = d.initializedMotors ∧
      ∀ w, (((runLoop cmdMode ta fw frames d).2).motors w).initialized =
        (d.motors w).initialized
  | [], d => ⟨rfl, fun _ => rfl⟩
  | f :: rest, d => by
    simp only [runLoop]
    split
    · exact ⟨rfl, fun _ => rfl⟩
    · split
      · exact ⟨rfl, fun _ => rfl⟩
      · split
        · exact tick_preserves ta fw f d
        · have h1 := tick_preserves ta fw f d
          have h2 := runLoop_preserves cmdMode ta fw rest (tick ta fw f d).2
          exact ⟨h2.1.trans h1.1, fun w => (h2.2 w).trans (h1.2 w)⟩

/-- Helper: `stop_all` on a wheel in the initialized list is `stop` on that
wheel's motor. -/
theorem stop_all_motors (d : Drive) (w : Wheel) (hw : w ∈ d.initializedMotors) :
    (stop_all d).motors w = BTS7960Motor.stop (d.motors w) := by
  unfold stop_all stop_allF
  simp only [if_pos hw]
  unfold BTS7960Motor.stopF BTS7960Motor.stop
  rfl

/-- Helper: after `stop_all` then `cleanup`, an initialized wheel has both
channels at duty 0 and its initialized flag cleared. -/
theorem stop_cleanup_deenergizes (d : Drive) (w : Wheel)
    (hw : w ∈ d.initializedMotors) (hi : (d.motors w).initialized = true) :
    ((drive_cleanup (stop_all d)).motors w).rpmh = 0 ∧
    ((drive_cleanup (stop_all d)).motors w).lpmh = 0 ∧
    ((drive_cleanup (stop_all d)).motors w).initialized = false := by
  have hw2 : w ∈ (stop_all d).initializedMotors := hw
  have hcm : (drive_cleanup (stop_all d)).motors w =
      BTS7960Motor.cleanup ((stop_all d).motors w) := by
    unfold drive_cleanup
    simp only [if_pos hw2]
  rw [hcm, stop_all_motors d w hw]
  unfold BTS7960Motor.cleanup BTS7960Motor.stop
  simp [hi]

/-- C3: on every exit path of the tracking loop — interrupt/exception inside
the body, end of camera input (`ret` false or frames exhausted), or the
sentinel quit key — the event trace ends with `stop_all`, then the drive
cleanup/release, then the camera release, in that order, and the final state
of every wheel of an initially fully-initialized drive has both channels at
duty 0: no exit path leaves a motor energized. -/
theorem tracking_loop_shutdown (cmdMode : Bool) (ta : ℚ) (fw : ℤ)
    (frames : List Frame) (d : Drive)
    (hall : ∀ w, w ∈ d.initializedMotors)
    (hinit : ∀ w, (d.motors w).initialized = true) :
    (mainTracking cmdMode ta fw frames d).1 =
      (runLoop cmdMode ta fw frames d).1 ++
        [Event.evStopAll, Event.evDriveCleanup, Event.evCameraRelease] ∧
    ∀ w, ((mainTracking cmdMode ta fw frames d).2.motors w).rpmh = 0 ∧
      ((mainTracking cmdMode ta fw frames d).2.motors w).lpmh = 0 ∧
      ((mainTracking cmdMode ta fw frames d).2.motors w).initialized = false := by
  have hfinal : (mainTracking cmdMode ta fw frames d).2 =
      drive_cleanup (stop_all (runLoop cmdMode ta fw frames d).2) := rfl
  refine ⟨rfl, fun w => ?_⟩
  have hp := runLoop_preserves cmdMode ta fw frames d
  have hw : w ∈ ((runLoop cmdMode ta fw frames d).2).initializedMotors := by
    rw [hp.1]
    exact hall w
  have hi : (((runLoop cmdMode ta fw frames d).2).motors w).initialized = true := by
    rw [hp.2 w]
    exact hinit w
  rw [hfinal]
  exact stop_cleanup_deenergizes _ w hw hi

/-- A fully initialized four-wheel coordinator latched forward at duty 3/10,
used as a concrete instance. -/
def sampleDrive : Drive :=
  { motors := fun _ => { rpmh := 3/10, lpmh := 0, initialized := true },
    initializedMotors :=
      [Wheel.front_left, Wheel.front_right, Wheel.rear_left, Wheel.rear_right] }

/-- C3 witness: with no frames (immediate end of input) the front-left wheel
ends fully de-energized and released. -/
theorem tracking_loop_shutdown_witness :
    ((mainTracking false 1 640 [] sampleDrive).2.motors Wheel.front_left).rpmh = 0 ∧
    ((mainTracking false 1 640 [] sampleDrive).2.motors Wheel.front_left).lpmh = 0 ∧
    ((mainTracking false 1 640 [] sampleDrive).2.motors
      Wheel.front_left).initialized = false :=
  (tracking_loop_shutdown false 1 640 [] sampleDrive
    (by intro w; cases w <;> simp [sampleDrive])
    (fun _ => rfl)).2 Wheel.front_left

/-! ## Coordinator construction (drive.py, `Drive.__init__`) -/

/-- Observable actions during `Drive.__init__` (drive.py lines 95-137) and
the `Drive.cleanup` it triggers on failure (lines 238-254). -/
inductive CEvent
  | initOk (w : Wheel)
  | initFail (w : Wheel)
  | cleanupOf (w : Wheel)
  | factoryReset
deriving DecidableEq, Repr

/-- The order in which `Drive.__init__` constructs the four motors
(drive.py lines 104-130). -/
def wheelOrder : List Wheel :=
  [Wheel.front_left, Wheel.front_right, Wheel.rear_left, Wheel.rear_right]

/-- Construction of the remaining wheels given the already-initialized ones:
each wheel's `BTS7960Motor(...)` either succeeds (appending the wheel to
`initialized_motors`) or raises, in which case the `except` block of
`Drive.__init__` runs `self.cleanup()` — releasing exactly the
already-initialized wheels, in order, then resetting the pin factory — and
re-raises, so construction of every later wheel is never attempted and the
result is `none`. -/
def driveInitGo (fail : Wheel → Bool) :
    List Wheel → List Wheel → List CEvent × Option (List Wheel)
  | [], inited => ([], some inited)
  | w :: rest, inited =>
    if fail w then
      (CEvent.initFail w :: (inited.map CEvent.cleanupOf ++ [CEvent.factoryReset]),
        none)
    else
      let r := driveInitGo fail rest (inited ++ [w])
      (CEvent.initOk w :: r.1, r.2)

/-- drive.py lines 95-137, `Drive.__init__`: construct the four wheels in
order, rolling back on the first failure. -/
def driveInit (fail : Wheel → Bool) : List CEvent × Option (List Wheel) :=
  driveInitGo fail wheelOrder []

/-- C8: if construction fails on the third motor (rear-left), the first two
already-initialized motors are released in order, the pin factory is reset,
the fourth motor's initialization is never attempted (no event for
rear_right appears), and the failure propagates: no coordinator is
returned. -/
theorem construction_rollback_on_third_wheel :
    driveInit (fun w => w == Wheel.rear_left) =
      ([CEvent.initOk Wheel.front_left, CEvent.initOk Wheel.front_right,
        CEvent.initFail Wheel.rear_left, CEvent.cleanupOf Wheel.front_left,
        CEvent.cleanupOf Wheel.front_right, CEvent.factoryReset], none) ∧
    CEvent.initOk Wheel.rear_right ∉ (driveInit (fun w => w == Wheel.rear_left)).1 ∧
    CEvent.initFail Wheel.rear_right ∉ (driveInit (fun w => w == Wheel.rear_left)).1 := by
  refine ⟨rfl, ?_, ?_⟩ <;> decide

end Skibbs
